import Mathlib

/-!
# Don Juarez ESP32 flow-meter firmware

Shallow embedding of the three firmware sketches
(`esp32-webhook-config.cpp`, `esp32-webhook-examples.cpp`,
`esp32-working-example.cpp`) and the properties of their
measurement-and-dispatch core.

Modelling conventions
* `long` and `int` are 32-bit signed integers with wrap-around (ESP32, ILP32): values
  are `Int`, wrapped explicitly by `wrapLong`.
* `unsigned long` values are `Nat` below `2^32`; `millis()` wraps at `2^32`.
* `float` arithmetic is taken over exact rationals `ℚ`.
* The platform (clock, WiFi status, HTTP response code, interrupts) is passed
  in as explicit environment records; HTTP client calls are recorded as a list
  of operations. `Serial` logging is not recorded.
-/

namespace DonJuarez

/-! ## Machine arithmetic -/

/-- Value held by a 32-bit signed `long` after storing the mathematical integer `x`
(wrap-around modulo `2^32`). -/
def wrapLong (x : Int) : Int := (x + 2147483648) % 4294967296 - 2147483648

/-- Value returned by `millis()` when `now` milliseconds have elapsed since boot:
an `unsigned long`, so it wraps at `2^32`. -/
def millis (now : Nat) : Nat := now % 4294967296

/-- Subtraction `a - b` of two `unsigned long` values: the difference modulo `2^32`. -/
def subUL (a b : Nat) : Nat := (((a : Int) - (b : Int)) % 4294967296).toNat

/-- C library `round` over exact rationals: nearest integer, ties away from zero. -/
def cround (x : ℚ) : Int := if 0 ≤ x then ⌊x + 1 / 2⌋ else ⌈x - 1 / 2⌉

/-- Conversion `(int)x` of a floating value: truncation toward zero. Outside the range of
a 32-bit `int` the C++ result is undefined; the ESP32 conversion saturates, which is
what is modelled here. -/
def toInt (x : ℚ) : Int :=
  let t : Int := if 0 ≤ x then ⌊x⌋ else ⌈x⌉
  if 2147483647 < t then 2147483647
  else if t < -2147483648 then -2147483648
  else t

/-- Arduino `String(n)` for an unsigned number: its decimal digits, no padding. -/
def arduinoString (n : Nat) : String := Nat.repr n

/-! ## JSON documents and the HTTP client -/

/-- A value stored in a `DynamicJsonDocument` field. -/
inductive JsonValue where
  | str (s : String)
  | int (n : Int)
deriving DecidableEq, Repr

/-- A `DynamicJsonDocument`: its fields in insertion order. -/
abbrev JsonDocument := List (String × JsonValue)

/-- One call on an `HTTPClient` object. `POST` carries the document that
`serializeJson` turned into the payload. -/
inductive HttpOp where
  | begin (url : String)
  | addHeader (name value : String)
  | setTimeout (ms : Nat)
  | POST (payload : JsonDocument)
  | getString
  | finish
deriving DecidableEq, Repr

/-- What a send function did: the HTTP client calls it made, in order, and the `bool`
it returned. -/
structure SendResult where
  ops : List HttpOp
  ret : Bool
deriving DecidableEq, Repr

/-- The network as seen by one send call: whether `WiFi.status()` is `WL_CONNECTED`
and the value `http.POST` returns (a status code, or a negative transport error). -/
structure Net where
  connected : Bool
  httpResponseCode : Int
deriving DecidableEq, Repr

/-- True exactly on `POST` operations. -/
def HttpOp.isPOST : HttpOp → Bool
  | HttpOp.POST _ => true
  | _ => false

/-- Number of `POST` requests issued. -/
def postCount (r : SendResult) : Nat := (r.ops.filter HttpOp.isPOST).length

/-- The payloads posted, in order. -/
def posted : List HttpOp → List JsonDocument
  | [] => []
  | HttpOp.POST p :: rest => p :: posted rest
  | _ :: rest => posted rest

/-- Value of field `key` in a document. -/
def field (key : String) (doc : JsonDocument) : Option JsonValue :=
  (doc.find? (fun kv => kv.1 == key)).map Prod.snd

/-- Value of field `key` in the first payload posted by a send call. -/
def sentField (key : String) (r : SendResult) : Option JsonValue :=
  (posted r.ops).head?.bind (field key)

/-- The format `YYYY-MM-DD HH:MM:SS` that the wire protocol gives for the `datetime`
field, written from its description: 19 characters, digits everywhere except `-` at
positions 4 and 7, a space at position 10 and `:` at positions 13 and 16. -/
def isDateTimeFormat (str : String) : Bool :=
  let cs := str.toList
  cs.length == 19 &&
  (List.range 19).all (fun i =>
    let c := cs.getD i ' '
    if i = 4 ∨ i = 7 then c == '-'
    else if i = 10 then c == ' '
    else if i = 13 ∨ i = 16 then c == ':'
    else c.isDigit)

/-! ## `esp32-webhook-config.cpp` -/

namespace Config

def baseUrl : String := "https://gestor.donjuarez.com.br"
def webhookToken : String := "SEU_TOKEN_WEBHOOK"
def deviceId : String := "D8483"

/-- The globals of the sketch that change at run time, together with the two
`static` locals of `loop()`. -/
structure State where
  pulseCount : Int
  calibrationFactor : ℚ
  oldTime : Nat
  lastHeartbeat : Nat
  lastPulseCount : Int
deriving DecidableEq, Repr

/-- The interrupt handler: `pulseCount++` on a 32-bit `long`. -/
def pulseCounter (s : State) : State :=
  { s with pulseCount := wrapLong (s.pulseCount + 1) }

/-- The handler running `k` times. -/
def interrupts (k : Nat) (s : State) : State := pulseCounter^[k] s

/-- Source lines 101-143. -/
def sendHeartbeat (net : Net) : SendResult :=
  if net.connected = false then
    { ops := [], ret := false }
  else
    let url := baseUrl ++ "/api/webhooks/heartbeat"
    let doc : JsonDocument := [("device_id", JsonValue.str deviceId)]
    { ops := [HttpOp.begin url,
              HttpOp.addHeader "Content-Type" "application/json",
              HttpOp.addHeader "x-webhook-token" webhookToken,
              HttpOp.setTimeout 10000,
              HttpOp.POST doc,
              HttpOp.getString,
              HttpOp.finish],
      ret := decide (net.httpResponseCode = 200) }

/-- Source lines 197-204; `now` is the time since boot at the `millis()` call. -/
def getCurrentTimestamp (now : Nat) : String :=
  let currentTime := millis now
  arduinoString 2025 ++ "-08-15T" ++
    arduinoString ((currentTime / 3600000) % 24) ++ ":" ++
    arduinoString ((currentTime / 60000) % 60) ++ ":" ++
    arduinoString ((currentTime / 1000) % 60)

/-- Source lines 148-192; `now` is the time since boot when the timestamp is taken. -/
def sendPourEvent (net : Net) (now : Nat) (volumeMl : ℚ) : SendResult :=
  if net.connected = false then
    { ops := [], ret := false }
  else
    let url := baseUrl ++ "/api/webhooks/pour"
    let doc : JsonDocument :=
      [("device_id", JsonValue.str deviceId),
       ("datetime", JsonValue.str (getCurrentTimestamp now)),
       ("total_volume_ml", JsonValue.int (toInt (cround volumeMl)))]
    { ops := [HttpOp.begin url,
              HttpOp.addHeader "Content-Type" "application/json",
              HttpOp.addHeader "x-webhook-token" webhookToken,
              HttpOp.setTimeout 10000,
              HttpOp.POST doc,
              HttpOp.getString,
              HttpOp.finish],
      ret := decide (net.httpResponseCode = 200) }

/-- A call made by `loop()` to one of the send functions, with what it did. -/
inductive Call where
  | heartbeat (res : SendResult)
  | pour (volumeMl : ℚ) (res : SendResult)
deriving DecidableEq, Repr

/-- Everything one pass of `loop()` takes from the platform.
* `nowHbCheck`, `nowHbSet`, `nowSampleCheck`, `nowStamp`, `nowSampleSet`: time since boot
  at the `millis()` calls of lines 69, 71, 75, 199 (inside `sendPourEvent`) and 92;
* `hbNet`, `pourNet`: the network during `sendHeartbeat` and `sendPourEvent`;
* `irqBefore`: pulses arriving before `pulseCount` is read on line 76,
  `irqGuardDelta`: between the reads of lines 76 and 78,
  `irqDeltaStore`: between the reads of lines 78 and 90 (this spans `sendPourEvent`). -/
structure LoopEnv where
  nowHbCheck : Nat
  nowHbSet : Nat
  nowSampleCheck : Nat
  nowStamp : Nat
  nowSampleSet : Nat
  hbNet : Net
  pourNet : Net
  irqBefore : Nat
  irqGuardDelta : Nat
  irqDeltaStore : Nat
deriving DecidableEq, Repr

/-- Outcome of one pass of `loop()`: the new state, the send calls made in order, and the
value of the local `newPulses` when line 78 was executed. -/
structure LoopResult where
  state : State
  calls : List Call
  newPulses : Option Int
deriving DecidableEq, Repr

/-- Source lines 64-96. -/
def loop (env : LoopEnv) (s : State) : LoopResult :=
  -- lines 69-72
  let hbDue : Bool := decide (60000 < subUL (millis env.nowHbCheck) s.lastHeartbeat)
  let hbCalls : List Call := if hbDue then [Call.heartbeat (sendHeartbeat env.hbNet)] else []
  let s1 : State := if hbDue then { s with lastHeartbeat := millis env.nowHbSet } else s
  let s2 := interrupts env.irqBefore s1
  -- line 75
  if 5000 < subUL (millis env.nowSampleCheck) s2.oldTime then
    -- line 76
    if s2.pulseCount ≠ s2.lastPulseCount then
      let s3 := interrupts env.irqGuardDelta s2
      -- lines 78-79
      let newPulses : Int := wrapLong (s3.pulseCount - s3.lastPulseCount)
      let volumeMl : ℚ := (newPulses : ℚ) / s3.calibrationFactor
      -- lines 81-88
      let pourCalls : List Call :=
        if 5 < volumeMl then [Call.pour volumeMl (sendPourEvent env.pourNet env.nowStamp volumeMl)]
        else []
      let s4 := interrupts env.irqDeltaStore s3
      -- lines 90, 92
      { state := { s4 with lastPulseCount := s4.pulseCount, oldTime := millis env.nowSampleSet },
        calls := hbCalls ++ pourCalls,
        newPulses := some newPulses }
    else
      let s4 := interrupts (env.irqGuardDelta + env.irqDeltaStore) s2
      { state := { s4 with oldTime := millis env.nowSampleSet },
        calls := hbCalls,
        newPulses := none }
  else
    { state := interrupts (env.irqGuardDelta + env.irqDeltaStore) s2,
      calls := hbCalls,
      newPulses := none }

/-- The pour events handed to `sendPourEvent` during a pass: argument and outcome. -/
def pourCalls : List Call → List (ℚ × SendResult)
  | [] => []
  | Call.pour v r :: rest => (v, r) :: pourCalls rest
  | Call.heartbeat _ :: rest => pourCalls rest

/-- The outcomes of the `sendHeartbeat` calls made during a pass. -/
def heartbeatCalls : List Call → List SendResult
  | [] => []
  | Call.heartbeat r :: rest => r :: heartbeatCalls rest
  | Call.pour _ _ :: rest => heartbeatCalls rest

/-- State when `loop()` first runs: the initial values of the globals and statics, with
`oldTime` set by `setup()` (line 58) at time `bootNow`. -/
def initState (bootNow : Nat) : State :=
  { pulseCount := 0, calibrationFactor := 9 / 2, oldTime := millis bootNow,
    lastHeartbeat := 0, lastPulseCount := 0 }

end Config

/-! ## `esp32-webhook-examples.cpp` -/

namespace Examples

def baseUrl : String := "https://gestor.donjuarez.com.br"
def webhookToken : String := "9hlJAoyTSy7K"
def deviceId : String := "DJ001"

/-- Source lines 150-157: a fixed placeholder string. -/
def getCurrentDateTime : String := "2025-07-03 01:15:00"

/-- Source lines 41-72. Both branches on the response code call `getString` and then
`end`, in that order. -/
def sendPourEvent (net : Net) (volumeMl : ℚ) : SendResult :=
  let doc : JsonDocument :=
    [("device_id", JsonValue.str deviceId),
     ("datetime", JsonValue.str getCurrentDateTime),
     ("total_volume_ml", JsonValue.int (toInt volumeMl))]
  { ops := [HttpOp.begin (baseUrl ++ "/api/webhooks/pour"),
            HttpOp.addHeader "Content-Type" "application/json",
            HttpOp.addHeader "x-webhook-token" webhookToken,
            HttpOp.POST doc,
            HttpOp.getString,
            HttpOp.finish],
    ret := if net.httpResponseCode = 200 then true else false }

/-- Source lines 78-109. -/
def sendKegChangeEvent (net : Net) (kegCapacityLiters : Int) : SendResult :=
  let doc : JsonDocument :=
    [("device_id", JsonValue.str deviceId),
     ("datetime", JsonValue.str getCurrentDateTime),
     ("keg_capacity_liters", JsonValue.int kegCapacityLiters)]
  { ops := [HttpOp.begin (baseUrl ++ "/api/webhooks/keg-change"),
            HttpOp.addHeader "Content-Type" "application/json",
            HttpOp.addHeader "x-webhook-token" webhookToken,
            HttpOp.POST doc,
            HttpOp.getString,
            HttpOp.finish],
    ret := if net.httpResponseCode = 200 then true else false }

/-- Source lines 115-144. -/
def sendHeartbeat (net : Net) : SendResult :=
  let doc : JsonDocument := [("device_id", JsonValue.str deviceId)]
  { ops := [HttpOp.begin (baseUrl ++ "/api/webhooks/heartbeat"),
            HttpOp.addHeader "Content-Type" "application/json",
            HttpOp.addHeader "x-webhook-token" webhookToken,
            HttpOp.POST doc,
            HttpOp.getString,
            HttpOp.finish],
    ret := if net.httpResponseCode = 200 then true else false }

end Examples

/-! ## `esp32-working-example.cpp` -/

namespace Working

def baseUrl : String :=
  "https://ea3123c5-9f03-4f32-844a-fe4c8cdd0203-00-1inaocwyrymso.worf.replit.dev"
def webhookToken : String := "9hlJAoyTSy7K"
def deviceId : String := "ESP32_TESTE_001"

/-- Source lines 35-72. -/
def sendHeartbeat (net : Net) : SendResult :=
  let url := baseUrl ++ "/api/webhooks/heartbeat"
  let doc : JsonDocument := [("device_id", JsonValue.str deviceId)]
  { ops := [HttpOp.begin url,
            HttpOp.addHeader "Content-Type" "application/json",
            HttpOp.addHeader "x-webhook-token" webhookToken,
            HttpOp.POST doc,
            HttpOp.getString,
            HttpOp.finish],
    ret := if net.httpResponseCode = 200 then true else false }

/-- Source lines 74-108. -/
def sendPourEvent (net : Net) (tapId : Int) (totalVolumeMl : Int) : SendResult :=
  let url := baseUrl ++ "/api/webhooks/pour"
  let doc : JsonDocument :=
    [("device_id", JsonValue.str deviceId),
     ("tap_id", JsonValue.int tapId),
     ("datetime", JsonValue.str "2025-07-03 01:30:00"),
     ("total_volume_ml", JsonValue.int totalVolumeMl)]
  { ops := [HttpOp.begin url,
            HttpOp.addHeader "Content-Type" "application/json",
            HttpOp.addHeader "x-webhook-token" webhookToken,
            HttpOp.POST doc,
            HttpOp.getString,
            HttpOp.finish],
    ret := if net.httpResponseCode = 200 then true else false }

end Working

/-! ## Reachable states of `esp32-webhook-config.cpp` -/

namespace Config

/-- Total number of sensor pulses arriving during one pass of `loop()`. -/
def LoopEnv.pulses (env : LoopEnv) : Nat :=
  env.irqBefore + env.irqGuardDelta + env.irqDeltaStore

/-- `Reachable n s`: state `s` can be reached from boot by interrupts and passes of
`loop()`, with `n` sensor pulses since boot. -/
inductive Reachable : Nat → State → Prop where
  | boot (bootNow : Nat) : Reachable 0 (initState bootNow)
  | pulse {n : Nat} {s : State} : Reachable n s → Reachable (n + 1) (pulseCounter s)
  | pass {n : Nat} {s : State} (env : LoopEnv) :
      Reachable n s → Reachable (n + env.pulses) (loop env s).state

/-- Counter value after `k` runs of the interrupt handler starting from value `p`. -/
def bump (k : Nat) (p : Int) : Int := (fun q => wrapLong (q + 1))^[k] p

/-! ### Concrete scenarios -/

/-- A pass at 6 s after boot on a connected network answering 200, with no pulse arriving
during the pass. -/
def quietPass : LoopEnv :=
  { nowHbCheck := 6000, nowHbSet := 6000, nowSampleCheck := 6000, nowStamp := 6000,
    nowSampleSet := 6000, hbNet := ⟨true, 200⟩, pourNet := ⟨true, 200⟩,
    irqBefore := 0, irqGuardDelta := 0, irqDeltaStore := 0 }

/-- State at boot time 0 in which `pulses` pulses have been counted and none sampled. -/
def afterPulses (pulses : Int) : State :=
  { initState 0 with pulseCount := pulses }

/-- A pass at 12 s after boot, connected network answering 200, no pulse during the pass. -/
def laterPass : LoopEnv :=
  { nowHbCheck := 12000, nowHbSet := 12000, nowSampleCheck := 12000, nowStamp := 12000,
    nowSampleSet := 12000, hbNet := ⟨true, 200⟩, pourNet := ⟨true, 200⟩,
    irqBefore := 0, irqGuardDelta := 0, irqDeltaStore := 0 }

/-- The pass of `quietPass`, except that one pulse arrives between the read of line 78
and the read of line 90 (while `sendPourEvent` runs). -/
def pulseDuringSend : LoopEnv := { quietPass with irqDeltaStore := 1 }

/-- A pass just after the first minute with no network association. -/
def offlinePass : LoopEnv :=
  { nowHbCheck := 60001, nowHbSet := 60010, nowSampleCheck := 60010, nowStamp := 60010,
    nowSampleSet := 60010, hbNet := ⟨false, 0⟩, pourNet := ⟨false, 0⟩,
    irqBefore := 0, irqGuardDelta := 0, irqDeltaStore := 0 }

/-- A pass a little more than one minute after `offlinePass` set `lastHeartbeat`. -/
def nextMinutePass : LoopEnv :=
  { nowHbCheck := 120011, nowHbSet := 120020, nowSampleCheck := 120020, nowStamp := 120020,
    nowSampleSet := 120020, hbNet := ⟨true, 200⟩, pourNet := ⟨true, 200⟩,
    irqBefore := 0, irqGuardDelta := 0, irqDeltaStore := 0 }

/-- A state with a calibration factor of 0.001 pulses per mL and 3 000 000 unsampled
pulses. -/
def lowFactor : State :=
  { pulseCount := 3000000, calibrationFactor := 1 / 1000, oldTime := 0,
    lastHeartbeat := 0, lastPulseCount := 0 }

/-- The state after 2147483647 pulses, the pass `quietPass`, and one more pulse: the
counter has wrapped to the most negative `long`. -/
def wrapped : State :=
  { pulseCount := -2147483648, calibrationFactor := 9 / 2, oldTime := 6000,
    lastHeartbeat := 0, lastPulseCount := 2147483647 }

end Config

end DonJuarez

/-! # Theorems -/

namespace DonJuarez

namespace Config

/-! ## Auxiliary facts -/

theorem bump_zero (p : Int) : bump 0 p = p := rfl

theorem bump_succ (k : Nat) (p : Int) : bump (k + 1) p = wrapLong (bump k p + 1) := by
  unfold bump
  exact Function.iterate_succ_apply' _ k p

theorem bump_add (a b : Nat) (p : Int) : bump (a + b) p = bump b (bump a p) := by
  unfold bump
  rw [Nat.add_comm, Function.iterate_add_apply]

theorem interrupts_succ (k : Nat) (s : State) :
    interrupts (k + 1) s = pulseCounter (interrupts k s) := by
  unfold interrupts
  exact Function.iterate_succ_apply' pulseCounter k s

/-- Interrupts change `pulseCount` only. -/
theorem interrupts_eq (k : Nat) (s : State) :
    interrupts k s = { s with pulseCount := bump k s.pulseCount } := by
  induction k with
  | zero => rfl
  | succ k ih =>
    rw [interrupts_succ, ih, bump_succ]
    rfl

theorem wrapLong_of_range (x : Int) (h0 : -2147483648 ≤ x) (h1 : x < 2147483648) :
    wrapLong x = x := by
  unfold wrapLong
  rw [Int.emod_eq_of_lt (by omega) (by omega)]
  omega

/-- Below the top of the `long` range, `k` increments add `k`. -/
theorem bump_of_small (k : Nat) (p : Int) (h0 : -2147483648 ≤ p)
    (h1 : p + k < 2147483648) : bump k p = p + k := by
  induction k with
  | zero => simp [bump_zero]
  | succ k ih =>
    have hk := ih (by push_cast at h1; omega)
    rw [bump_succ, hk, wrapLong_of_range _ (by omega) (by push_cast at h1; omega)]
    push_cast
    ring

theorem pourCalls_append (xs ys : List Call) :
    pourCalls (xs ++ ys) = pourCalls xs ++ pourCalls ys := by
  induction xs with
  | nil => rfl
  | cons x xs ih => cases x <;> simp [pourCalls, ih]

theorem heartbeatCalls_append (xs ys : List Call) :
    heartbeatCalls (xs ++ ys) = heartbeatCalls xs ++ heartbeatCalls ys := by
  induction xs with
  | nil => rfl
  | cons x xs ih => cases x <;> simp [heartbeatCalls, ih]

/-- After a pass the counter holds the pulses that arrived during it. -/
theorem loop_state_pulseCount (env : LoopEnv) (s : State) :
    (loop env s).state.pulseCount = bump env.pulses s.pulseCount := by
  unfold loop LoopEnv.pulses
  simp only [interrupts_eq]
  split_ifs <;> simp [bump_add, Nat.add_assoc]

/-- A pass either leaves `lastPulseCount` alone or stores the counter read on line 90. -/
theorem loop_state_lastPulseCount (env : LoopEnv) (s : State) :
    (loop env s).state.lastPulseCount = s.lastPulseCount ∨
    (loop env s).state.lastPulseCount = bump env.pulses s.pulseCount := by
  unfold loop LoopEnv.pulses
  simp only [interrupts_eq]
  split_ifs <;> simp [bump_add, Nat.add_assoc]

/-- When a pass computes a delta `d`, its pour calls are decided by `d / calibrationFactor`
alone. -/
theorem pourCalls_of_newPulses (env : LoopEnv) (s : State) (d : Int)
    (hpass : (loop env s).newPulses = some d) :
    pourCalls (loop env s).calls =
      if 5 < (d : ℚ) / s.calibrationFactor then
        [((d : ℚ) / s.calibrationFactor,
          sendPourEvent env.pourNet env.nowStamp ((d : ℚ) / s.calibrationFactor))]
      else [] := by
  unfold loop at hpass ⊢
  simp only [interrupts_eq] at hpass ⊢
  split_ifs at hpass ⊢ <;> simp_all [pourCalls_append, pourCalls, heartbeatCalls]
  all_goals linarith

/-- The delta computed by a due pass in which the guard of line 76 passes. -/
theorem newPulses_of_due (env : LoopEnv) (s : State)
    (hdue : 5000 < subUL (millis env.nowSampleCheck) s.oldTime)
    (hguard : bump env.irqBefore s.pulseCount ≠ s.lastPulseCount) :
    (loop env s).newPulses =
      some (wrapLong
        (bump (env.irqBefore + env.irqGuardDelta) s.pulseCount - s.lastPulseCount)) := by
  unfold loop
  simp only [interrupts_eq]
  split_ifs <;> simp_all [bump_add]

/-- A pass makes at most one pour call. -/
theorem pourCalls_length_le_one (env : LoopEnv) (s : State) :
    (pourCalls (loop env s).calls).length ≤ 1 := by
  unfold loop
  simp only [interrupts_eq]
  split_ifs <;> simp [pourCalls_append, pourCalls]

/-- The state after a pass does not depend on the network. -/
theorem loop_state_net_irrelevant (env : LoopEnv) (s : State) (hbNet pourNet : Net) :
    (loop { env with hbNet := hbNet, pourNet := pourNet } s).state = (loop env s).state := by
  unfold loop
  simp only [interrupts_eq]
  split_ifs <;> rfl

theorem cround_nonneg (x : ℚ) (hx : 0 ≤ x) : 0 ≤ cround x := by
  unfold cround
  rw [if_pos hx]
  exact Int.floor_nonneg.mpr (by linarith)

/-- Inside the `int` range the conversion of an integral value is exact. -/
theorem toInt_intCast (n : Int) (h0 : -2147483648 ≤ n) (h1 : n ≤ 2147483647) :
    toInt (n : ℚ) = n := by
  unfold toInt
  simp only [Int.floor_intCast, Int.ceil_intCast, ite_self]
  rw [if_neg (by omega), if_neg (by omega)]

theorem reachable_interrupts (k : Nat) {n : Nat} {s : State} (h : Reachable n s) :
    Reachable (n + k) (interrupts k s) := by
  induction k with
  | zero => exact h
  | succ k ih =>
    rw [interrupts_succ, ← Nat.add_assoc]
    exact Reachable.pulse ih

/-- Before the counter wraps it equals the number of pulses since boot, and
`lastPulseCount` lies between 0 and the counter. -/
theorem reachable_inv {n : Nat} {s : State} (h : Reachable n s) (hn : n < 2147483648) :
    s.pulseCount = n ∧ 0 ≤ s.lastPulseCount ∧ s.lastPulseCount ≤ s.pulseCount := by
  induction h with
  | boot bootNow => simp [initState]
  | pulse hr ih =>
    obtain ⟨h1, h2, h3⟩ := ih (by omega)
    simp only [pulseCounter]
    rw [h1, wrapLong_of_range _ (by omega) (by omega)]
    refine ⟨by push_cast; ring, h2, by omega⟩
  | pass env hr ih =>
    rename_i m t
    obtain ⟨h1, h2, h3⟩ := ih (by omega)
    have hb : bump env.pulses t.pulseCount = t.pulseCount + env.pulses :=
      bump_of_small _ _ (by omega) (by rw [h1]; exact_mod_cast hn)
    rw [loop_state_pulseCount, hb, h1]
    refine ⟨by push_cast; ring, ?_, ?_⟩
    · rcases loop_state_lastPulseCount env t with h | h <;> rw [h]
      · exact h2
      · rw [hb]; omega
    · rcases loop_state_lastPulseCount env t with h | h <;> rw [h]
      · omega
      · rw [hb, h1]

/-- The timestamp always has `T` as its eleventh character. -/
theorem getCurrentTimestamp_separator (now : Nat) :
    (getCurrentTimestamp now).data[10]? = some 'T' := by
  unfold getCurrentTimestamp
  simp only [String.data_append]
  have h2025 : (arduinoString 2025).data = ['2', '0', '2', '5'] := by decide
  rw [h2025]
  simp

end Config

namespace Config

/-! ## Event trigger -/

/-- Claim C1: in a pass of `loop()` that computes a pulse delta `d > 0` (the sampling was
due and line 78 ran) with calibration factor `c > 0`, `sendPourEvent` is called if and
only if `d / c > 5`; when it is, it is called exactly once, with `d / c`; a delta volume
of exactly 5 dispatches nothing. With `c = 4.5` a pour event is dispatched iff
`d ≥ 23`. -/
theorem loop_pour_iff_above_threshold (env : LoopEnv) (s : State) (d : Int)
    (hpass : (loop env s).newPulses = some d) (hd : 0 < d) (hc : 0 < s.calibrationFactor) :
    0 < (d : ℚ) / s.calibrationFactor ∧
    (pourCalls (loop env s).calls ≠ [] ↔ 5 < (d : ℚ) / s.calibrationFactor) ∧
    (5 < (d : ℚ) / s.calibrationFactor →
      pourCalls (loop env s).calls =
        [((d : ℚ) / s.calibrationFactor,
          sendPourEvent env.pourNet env.nowStamp ((d : ℚ) / s.calibrationFactor))]) ∧
    ((d : ℚ) / s.calibrationFactor = 5 → pourCalls (loop env s).calls = []) ∧
    (s.calibrationFactor = 9 / 2 → (pourCalls (loop env s).calls ≠ [] ↔ 23 ≤ d)) := by
  have key := pourCalls_of_newPulses env s d hpass
  have h1 : pourCalls (loop env s).calls ≠ [] ↔ 5 < (d : ℚ) / s.calibrationFactor := by
    rw [key]
    split_ifs with h <;> simp [h]
  refine ⟨div_pos (by exact_mod_cast hd) hc, h1, ?_, ?_, ?_⟩
  · intro h
    rw [key, if_pos h]
  · intro h
    rw [key, if_neg (by rw [h]; exact lt_irrefl _)]
  · intro h45
    rw [h1, h45, lt_div_iff₀ (by norm_num)]
    constructor
    · intro h
      have h2 : (45 : ℚ) < 2 * d := by linarith
      have h3 : (45 : Int) < 2 * d := by exact_mod_cast h2
      omega
    · intro h
      have h2 : (23 : ℚ) ≤ d := by exact_mod_cast h
      linarith

/-- Witness for C1: the pass that samples 23 new pulses at calibration factor 4.5
dispatches a pour event. -/
theorem loop_pour_iff_above_threshold_witness :
    (loop quietPass (afterPulses 23)).newPulses = some 23 ∧
    pourCalls (loop quietPass (afterPulses 23)).calls ≠ [] :=
  have hp : (loop quietPass (afterPulses 23)).newPulses = some 23 := by decide
  have hc : 0 < (afterPulses 23).calibrationFactor := by
    simp [afterPulses, initState]
  ⟨hp, ((loop_pour_iff_above_threshold quietPass (afterPulses 23) 23 hp (by decide)
    hc).2.2.2.2 (by simp [afterPulses, initState])).2 (by decide)⟩

/-- Counterexample to C2 as stated: with 3 000 000 new pulses at calibration factor 0.001
a pour event is dispatched, `d / c` rounds to 3 000 000 000, and the `total_volume_ml`
field of the payload is 2147483647, the largest `int`. -/
theorem loop_pour_volume_out_of_range :
    (loop quietPass lowFactor).newPulses = some 3000000 ∧
    0 < lowFactor.calibrationFactor ∧
    pourCalls (loop quietPass lowFactor).calls =
      [(3000000000, sendPourEvent quietPass.pourNet quietPass.nowStamp 3000000000)] ∧
    sentField "total_volume_ml"
        (sendPourEvent quietPass.pourNet quietPass.nowStamp 3000000000) =
      some (JsonValue.int 2147483647) ∧
    cround ((3000000 : ℚ) / lowFactor.calibrationFactor) = 3000000000 := by
  have hp : (loop quietPass lowFactor).newPulses = some 3000000 := by decide
  refine ⟨hp, by simp [lowFactor], ?_, ?_, ?_⟩
  · rw [pourCalls_of_newPulses _ _ _ hp]
    norm_num [lowFactor]
  · have h : cround 3000000000 = 3000000000 := by
      simp only [cround]
      norm_num [Int.floor_eq_iff]
    simp [sentField, sendPourEvent, posted, field, quietPass, h]
    have hcast : (3000000000 : ℚ) = ((3000000000 : Int) : ℚ) := by norm_num
    rw [hcast]
    unfold toInt
    simp only [Int.floor_intCast, Int.ceil_intCast, ite_self]
    decide
  · simp only [cround, lowFactor]
    norm_num [Int.floor_eq_iff]

/-- Claim C2, amended: for a pulse delta `d ≥ 0` and calibration factor `c > 0` for which
a pour event is dispatched, and whose rounded volume fits in a 32-bit `int`, the
`total_volume_ml` field of the payload posted by `sendPourEvent` is `d / c` rounded to the
nearest integer (ties away from zero) and is non-negative; for `d = 23` and `c = 4.5` the
rounded value is 5. -/
theorem loop_pour_volume_rounded (env : LoopEnv) (s : State) (d : Int)
    (hpass : (loop env s).newPulses = some d) (hd : 0 ≤ d) (hc : 0 < s.calibrationFactor)
    (hfire : 5 < (d : ℚ) / s.calibrationFactor)
    (hfit : cround ((d : ℚ) / s.calibrationFactor) ≤ 2147483647) :
    pourCalls (loop env s).calls =
      [((d : ℚ) / s.calibrationFactor,
        sendPourEvent env.pourNet env.nowStamp ((d : ℚ) / s.calibrationFactor))] ∧
    (env.pourNet.connected = true →
      sentField "total_volume_ml"
          (sendPourEvent env.pourNet env.nowStamp ((d : ℚ) / s.calibrationFactor)) =
        some (JsonValue.int (cround ((d : ℚ) / s.calibrationFactor)))) ∧
    0 ≤ cround ((d : ℚ) / s.calibrationFactor) ∧
    (d = 23 → s.calibrationFactor = 9 / 2 →
      cround ((d : ℚ) / s.calibrationFactor) = 5) := by
  have hv : 0 ≤ (d : ℚ) / s.calibrationFactor :=
    div_nonneg (by exact_mod_cast hd) hc.le
  have hr := cround_nonneg _ hv
  refine ⟨?_, ?_, hr, ?_⟩
  · rw [pourCalls_of_newPulses env s d hpass, if_pos hfire]
  · intro hconn
    simp [sentField, sendPourEvent, posted, field, hconn]
    exact toInt_intCast _ (by omega) hfit
  · intro h23 h45
    rw [h23, h45]
    simp only [cround]
    norm_num [Int.floor_eq_iff]

/-- Witness for C2: 23 new pulses at calibration factor 4.5 on a connected network send
`total_volume_ml = 5`. -/
theorem loop_pour_volume_rounded_witness :
    (loop quietPass (afterPulses 23)).newPulses = some 23 ∧
    sentField "total_volume_ml"
        (sendPourEvent quietPass.pourNet quietPass.nowStamp
          (((23 : Int) : ℚ) / (afterPulses 23).calibrationFactor)) =
      some (JsonValue.int (cround (((23 : Int) : ℚ) / (afterPulses 23).calibrationFactor))) ∧
    cround (((23 : Int) : ℚ) / (afterPulses 23).calibrationFactor) = 5 :=
  have hp : (loop quietPass (afterPulses 23)).newPulses = some 23 := by decide
  have hc : (afterPulses 23).calibrationFactor = 9 / 2 := by simp [afterPulses, initState]
  have h5 : cround (((23 : Int) : ℚ) / (afterPulses 23).calibrationFactor) = 5 := by
    rw [hc]
    simp only [cround]
    norm_num [Int.floor_eq_iff]
  have h := loop_pour_volume_rounded quietPass (afterPulses 23) 23 hp (by decide)
    (by rw [hc]; norm_num) (by rw [hc]; norm_num) (by rw [h5]; decide)
  ⟨hp, h.2.1 rfl, h.2.2.2 rfl hc⟩

/-- Claim C3: after a due sampling pass of `loop()` with no interrupt during the pass,
`lastPulseCount` equals the current `pulseCount`, whatever the threshold test and the
dispatch did; when the counter equals `lastPulseCount` (delta 0) no delta is computed, no
pour event is dispatched and `lastPulseCount` is unchanged. With the counter at 4,
`lastPulseCount` at 0 and calibration factor 4.5, nothing is dispatched and
`lastPulseCount` becomes 4. -/
theorem loop_sample_stores_count (env : LoopEnv) (s : State)
    (hdue : 5000 < subUL (millis env.nowSampleCheck) s.oldTime)
    (hquiet : env.irqBefore = 0 ∧ env.irqGuardDelta = 0 ∧ env.irqDeltaStore = 0) :
    (loop env s).state.pulseCount = s.pulseCount ∧
    (loop env s).state.lastPulseCount = s.pulseCount ∧
    (s.pulseCount = s.lastPulseCount →
      (loop env s).newPulses = none ∧ pourCalls (loop env s).calls = [] ∧
      (loop env s).state.lastPulseCount = s.lastPulseCount) ∧
    (s.pulseCount = 4 → s.lastPulseCount = 0 → s.calibrationFactor = 9 / 2 →
      pourCalls (loop env s).calls = [] ∧ (loop env s).state.lastPulseCount = 4) := by
  obtain ⟨hq0, hq1, hq2⟩ := hquiet
  have hstate : (loop env s).state.pulseCount = s.pulseCount ∧
      (loop env s).state.lastPulseCount = s.pulseCount := by
    unfold loop
    simp only [interrupts_eq, hq0, hq1, hq2, bump_zero, Nat.add_zero]
    split_ifs <;> simp_all [bump_zero]
  refine ⟨hstate.1, hstate.2, ?_, ?_⟩
  · intro heq
    unfold loop
    simp only [interrupts_eq, hq0, hq1, hq2, bump_zero, Nat.add_zero]
    split_ifs <;> simp_all [pourCalls, pourCalls_append, bump_zero]
  · intro h4 h0 h45
    refine ⟨?_, by rw [hstate.2, h4]⟩
    have hp : (loop env s).newPulses = some 4 := by
      rw [newPulses_of_due env s hdue (by simp [hq0, bump_zero, h4, h0])]
      simp [hq0, hq1, bump_zero, h4, h0]
      decide
    rw [pourCalls_of_newPulses env s 4 hp, h45]
    norm_num

/-- Witness for C3: pulses going from 0 to 4 at calibration factor 4.5. -/
theorem loop_sample_stores_count_witness :
    (loop quietPass (afterPulses 4)).state.lastPulseCount = (afterPulses 4).pulseCount ∧
    pourCalls (loop quietPass (afterPulses 4)).calls = [] ∧
    (loop quietPass (afterPulses 4)).state.lastPulseCount = 4 :=
  have h := loop_sample_stores_count quietPass (afterPulses 4) (by decide)
    ⟨rfl, rfl, rfl⟩
  ⟨h.2.1, h.2.2.2 rfl rfl (by simp [afterPulses, initState])⟩

end Config

/-! ## Delivery client -/

/-- Claim C4: when the network status is not `WL_CONNECTED`, `sendHeartbeat` and
`sendPourEvent` of `esp32-webhook-config.cpp` return `false` and make no HTTP client call
at all: no request is begun, no payload is built, no `POST` is issued. -/
theorem send_not_connected (net : Net) (now : Nat) (volumeMl : ℚ)
    (hnet : net.connected = false) :
    Config.sendHeartbeat net = { ops := [], ret := false } ∧
    Config.sendPourEvent net now volumeMl = { ops := [], ret := false } := by
  simp [Config.sendHeartbeat, Config.sendPourEvent, hnet]

/-- Witness for C4: a disconnected network. -/
theorem send_not_connected_witness :
    Config.sendHeartbeat ⟨false, 200⟩ = { ops := [], ret := false } ∧
    Config.sendPourEvent ⟨false, 200⟩ 6000 (46 / 9) = { ops := [], ret := false } :=
  send_not_connected ⟨false, 200⟩ 6000 (46 / 9) rfl

/-- Claim C5: every send function of the three sketches that reaches transmission issues
exactly one `POST` and returns `true` if and only if the response code is 200, for every
integer response code (negative transport errors included). A 401 answer to a pour `POST`
gives `false`; a pass of `loop()` calls `sendPourEvent` at most once and its resulting
state does not depend on the answer, so nothing is retried or queued. -/
theorem send_once_ok_iff_200 (net : Net) (now : Nat) (volumeMl : ℚ)
    (tapId totalVolumeMl kegCapacityLiters : Int) (env : Config.LoopEnv) (s : Config.State) :
    (net.connected = true →
      (postCount (Config.sendHeartbeat net) = 1 ∧
        ((Config.sendHeartbeat net).ret = true ↔ net.httpResponseCode = 200)) ∧
      (postCount (Config.sendPourEvent net now volumeMl) = 1 ∧
        ((Config.sendPourEvent net now volumeMl).ret = true ↔ net.httpResponseCode = 200))) ∧
    (postCount (Examples.sendPourEvent net volumeMl) = 1 ∧
      ((Examples.sendPourEvent net volumeMl).ret = true ↔ net.httpResponseCode = 200)) ∧
    (postCount (Examples.sendKegChangeEvent net kegCapacityLiters) = 1 ∧
      ((Examples.sendKegChangeEvent net kegCapacityLiters).ret = true ↔
        net.httpResponseCode = 200)) ∧
    (postCount (Examples.sendHeartbeat net) = 1 ∧
      ((Examples.sendHeartbeat net).ret = true ↔ net.httpResponseCode = 200)) ∧
    (postCount (Working.sendHeartbeat net) = 1 ∧
      ((Working.sendHeartbeat net).ret = true ↔ net.httpResponseCode = 200)) ∧
    (postCount (Working.sendPourEvent net tapId totalVolumeMl) = 1 ∧
      ((Working.sendPourEvent net tapId totalVolumeMl).ret = true ↔
        net.httpResponseCode = 200)) ∧
    (net.httpResponseCode = 401 →
      (Config.sendPourEvent net now volumeMl).ret = false ∧
      (Examples.sendPourEvent net volumeMl).ret = false ∧
      (Working.sendPourEvent net tapId totalVolumeMl).ret = false) ∧
    (Config.pourCalls (Config.loop env s).calls).length ≤ 1 ∧
    (Config.loop { env with hbNet := net, pourNet := net } s).state =
      (Config.loop env s).state := by
  refine ⟨?_, ?_, ?_, ?_, ?_, ?_, ?_, Config.pourCalls_length_le_one env s,
    Config.loop_state_net_irrelevant env s net net⟩
  · intro h
    simp [postCount, Config.sendHeartbeat, Config.sendPourEvent, HttpOp.isPOST, h]
  · simp [postCount, Examples.sendPourEvent, HttpOp.isPOST]
  · simp [postCount, Examples.sendKegChangeEvent, HttpOp.isPOST]
  · simp [postCount, Examples.sendHeartbeat, HttpOp.isPOST]
  · simp [postCount, Working.sendHeartbeat, HttpOp.isPOST]
  · simp [postCount, Working.sendPourEvent, HttpOp.isPOST]
  · intro h
    refine ⟨?_, ?_, ?_⟩
    · unfold Config.sendPourEvent
      split <;> simp [h]
    · simp [Examples.sendPourEvent, h]
    · simp [Working.sendPourEvent, h]

/-- Witness for C5: a connected network answering 401 to a pour `POST`. -/
theorem send_once_ok_iff_200_witness :
    postCount (Config.sendPourEvent ⟨true, 401⟩ 6000 (46 / 9)) = 1 ∧
    (Config.sendPourEvent ⟨true, 401⟩ 6000 (46 / 9)).ret = false :=
  ⟨((send_once_ok_iff_200 ⟨true, 401⟩ 6000 (46 / 9) 1 5 30 Config.quietPass
      (Config.afterPulses 23)).1 rfl).2.1,
   ((send_once_ok_iff_200 ⟨true, 401⟩ 6000 (46 / 9) 1 5 30 Config.quietPass
      (Config.afterPulses 23)).2.2.2.2.2.2.1 rfl).1⟩

/-! ## Timestamp and volume fields of the pour payload -/

/-- Claim C6 fails on the code: for every clock value the `datetime` built by
`getCurrentTimestamp` has `T` where the format `YYYY-MM-DD HH:MM:SS` has a space, so it
never has that format; at clock value 0 it is `2025-08-15T0:0:0`, 16 characters with no
zero padding, and that is what `sendPourEvent` puts in the payload. The placeholder of
`esp32-webhook-examples.cpp` does have the format. -/
theorem getCurrentTimestamp_not_datetime_format :
    (∀ now : Nat, isDateTimeFormat (Config.getCurrentTimestamp now) = false) ∧
    Config.getCurrentTimestamp 0 = "2025-08-15T0:0:0" ∧
    (Config.getCurrentTimestamp 0).length = 16 ∧
    sentField "datetime" (Config.sendPourEvent ⟨true, 200⟩ 0 (46 / 9)) =
      some (JsonValue.str "2025-08-15T0:0:0") ∧
    isDateTimeFormat Examples.getCurrentDateTime = true := by
  refine ⟨?_, by decide, by decide, ?_, by decide⟩
  · intro now
    unfold isDateTimeFormat
    simp only [Bool.and_eq_false_iff]
    right
    rw [List.all_eq_false]
    refine ⟨10, by simp, ?_⟩
    simp [Config.getCurrentTimestamp_separator now]
  · simp [sentField, Config.sendPourEvent, posted, field]
    decide

/-- Claim C7 fails on the code: for the volume 5.5 `sendPourEvent` of
`esp32-webhook-examples.cpp` sends `total_volume_ml = 5` (the cast truncates), while 5.5
rounds to 6, which is what `sendPourEvent` of `esp32-webhook-config.cpp` sends. -/
theorem examples_sendPourEvent_truncates :
    sentField "total_volume_ml" (Examples.sendPourEvent ⟨true, 200⟩ (11 / 2)) =
      some (JsonValue.int 5) ∧
    sentField "total_volume_ml" (Config.sendPourEvent ⟨true, 200⟩ 0 (11 / 2)) =
      some (JsonValue.int 6) ∧
    cround (11 / 2) = 6 := by
  have hr : cround (11 / 2) = 6 := by
    simp only [cround]
    norm_num [Int.floor_eq_iff]
  have ht : toInt (11 / 2) = 5 := by
    have hf : ⌊(11 / 2 : ℚ)⌋ = 5 := by norm_num [Int.floor_eq_iff]
    have h0 : (0 : ℚ) ≤ 11 / 2 := by norm_num
    simp only [toInt, if_pos h0, hf]
    decide
  refine ⟨?_, ?_, hr⟩
  · simp [sentField, Examples.sendPourEvent, posted, field, ht]
  · have h6 : toInt ((6 : Int) : ℚ) = 6 := Config.toInt_intCast 6 (by decide) (by decide)
    simp [sentField, Config.sendPourEvent, posted, field, hr]
    exact_mod_cast h6

namespace Config

/-! ## Sampling pointer and heartbeat schedule -/

/-- Counterexample to C8 as stated: the state `wrapped` is reachable with 2147483648
pulses since boot (the counter has wrapped to -2147483648), and the next due pass lowers
`lastPulseCount` from 2147483647 to -2147483648. -/
theorem loop_lastPulseCount_drops_at_wrap :
    Reachable 2147483648 wrapped ∧
    (loop laterPass wrapped).state.lastPulseCount = -2147483648 ∧
    (loop laterPass wrapped).state.lastPulseCount < wrapped.lastPulseCount := by
  have h1 : Reachable (0 + 2147483647) (interrupts 2147483647 (initState 0)) :=
    reachable_interrupts 2147483647 (Reachable.boot 0)
  have e1 : interrupts 2147483647 (initState 0) = afterPulses 2147483647 := by
    rw [interrupts_eq, bump_of_small _ _ (by simp [initState]) (by simp [initState])]
    simp [afterPulses, initState]
  rw [e1] at h1
  have h2 := Reachable.pulse (Reachable.pass quietPass h1)
  have e2 : pulseCounter (loop quietPass (afterPulses 2147483647)).state = wrapped := rfl
  rw [e2] at h2
  exact ⟨h2, by decide, by decide⟩

/-- Claim C8, amended: for every state reachable from boot and every pass of `loop()`
such that fewer than 2^31 pulses have arrived since boot by the end of the pass (the
32-bit counter has not wrapped), `lastPulseCount` after the pass is greater than or equal
to its value before the pass. -/
theorem loop_lastPulseCount_mono (env : LoopEnv) (n : Nat) (s : State)
    (hreach : Reachable n s) (hfit : n + env.pulses < 2147483648) :
    s.lastPulseCount ≤ (loop env s).state.lastPulseCount := by
  obtain ⟨h1, h2, h3⟩ := reachable_inv hreach (by omega)
  rcases loop_state_lastPulseCount env s with h | h <;> rw [h]
  rw [bump_of_small _ _ (by omega) (by rw [h1]; exact_mod_cast hfit)]
  omega

/-- Witness for C8: the pass `quietPass` after 23 pulses since boot. -/
theorem loop_lastPulseCount_mono_witness :
    (interrupts 23 (initState 0)).lastPulseCount ≤
      (loop quietPass (interrupts 23 (initState 0))).state.lastPulseCount :=
  loop_lastPulseCount_mono quietPass (0 + 23) (interrupts 23 (initState 0))
    (reachable_interrupts 23 (Reachable.boot 0)) (by decide)

/-- Claim C9: in every pass of `loop()` the heartbeat is sent if and only if the clock
value read on line 69 minus `lastHeartbeat`, modulo 2^32, exceeds 60000, whatever the
pulse counters and earlier send results are; after a firing `lastHeartbeat` is the clock
value read on line 71, whatever `sendHeartbeat` returned, so the next pass fires again
exactly when more than 60000 ms have elapsed since then. -/
theorem loop_heartbeat_schedule (env next : LoopEnv) (s : State) :
    (heartbeatCalls (loop env s).calls ≠ [] ↔
      60000 < subUL (millis env.nowHbCheck) s.lastHeartbeat) ∧
    (60000 < subUL (millis env.nowHbCheck) s.lastHeartbeat →
      heartbeatCalls (loop env s).calls = [sendHeartbeat env.hbNet] ∧
      (loop env s).state.lastHeartbeat = millis env.nowHbSet ∧
      (heartbeatCalls (loop next (loop env s).state).calls ≠ [] ↔
        60000 < subUL (millis next.nowHbCheck) (millis env.nowHbSet))) ∧
    (¬ 60000 < subUL (millis env.nowHbCheck) s.lastHeartbeat →
      heartbeatCalls (loop env s).calls = [] ∧
      (loop env s).state.lastHeartbeat = s.lastHeartbeat) := by
  have hcalls : ∀ (e : LoopEnv) (t : State), heartbeatCalls (loop e t).calls =
      if 60000 < subUL (millis e.nowHbCheck) t.lastHeartbeat then [sendHeartbeat e.hbNet]
      else [] := by
    intro e t
    unfold loop
    simp only [interrupts_eq]
    split_ifs <;> simp_all [heartbeatCalls, heartbeatCalls_append]
  have hstate : (loop env s).state.lastHeartbeat =
      if 60000 < subUL (millis env.nowHbCheck) s.lastHeartbeat then millis env.nowHbSet
      else s.lastHeartbeat := by
    unfold loop
    simp only [interrupts_eq]
    split_ifs <;> simp_all
  refine ⟨?_, ?_, ?_⟩
  · rw [hcalls]
    split_ifs with h <;> simp [h]
  · intro h
    refine ⟨by rw [hcalls, if_pos h], by rw [hstate, if_pos h], ?_⟩
    rw [hcalls, hstate, if_pos h]
    split_ifs with h2 <;> simp [h2]
  · intro h
    exact ⟨by rw [hcalls, if_neg h], by rw [hstate, if_neg h]⟩

/-- Witness for C9: a heartbeat that fires without network association makes no HTTP
call and returns `false`; the heartbeat fires again a little over 60 s later. -/
theorem loop_heartbeat_schedule_witness :
    heartbeatCalls (loop offlinePass (initState 0)).calls = [sendHeartbeat offlinePass.hbNet] ∧
    sendHeartbeat offlinePass.hbNet = { ops := [], ret := false } ∧
    (loop offlinePass (initState 0)).state.lastHeartbeat = millis offlinePass.nowHbSet ∧
    heartbeatCalls (loop nextMinutePass (loop offlinePass (initState 0)).state).calls ≠ [] :=
  have h := (loop_heartbeat_schedule offlinePass nextMinutePass (initState 0)).2.1
    (by decide)
  ⟨h.1, by decide, h.2.1, h.2.2.2 (by decide)⟩

/-- Claim C10 fails on the code: starting with 23 unsampled pulses, a pass during which
one more pulse arrives between the read of line 78 and the read of line 90 computes the
delta 23 but stores 24 in `lastPulseCount`; the next pass then computes no delta, so the
24th pulse is in no delta and the deltas sum to 23, not to 24 - 0. -/
theorem loop_drops_pulse_during_send :
    (afterPulses 23).lastPulseCount = 0 ∧
    (loop pulseDuringSend (afterPulses 23)).newPulses = some 23 ∧
    (loop pulseDuringSend (afterPulses 23)).state.pulseCount = 24 ∧
    (loop pulseDuringSend (afterPulses 23)).state.lastPulseCount = 24 ∧
    (loop laterPass (loop pulseDuringSend (afterPulses 23)).state).newPulses = none ∧
    (loop laterPass (loop pulseDuringSend (afterPulses 23)).state).state.lastPulseCount =
      24 := by
  decide

end Config

end DonJuarez
